import Mathlib

/-!
Verification of the larkslim repository: a Lark (Feishu) open-API client and
webhook server. The definitions below are shallow embeddings of the Go source:

* `src/larkbot/server.go` — the webhook server (`handleLarkCards`,
  `handleLarkEvents`, `updateAccessToken`);
* `src/unnamed/part_001` — the current-generation SDK (`getAccessToken`,
  `newRequest`, `do`, `parseTarget`, the send helpers).

Machine integers are modelled as `Nat`/`Int` with explicit `% 2^32` where the
Go code relies on 32-bit wrap-around (the SHA-1 compression function); byte
strings are `List Nat` (each element `< 256`); fallible code returns `Except`;
the HTTP `ResponseWriter` is an explicit record threaded through the handlers.
-/

namespace LarkSlim

/-- A JSON value, the shape `encoding/json` produces when unmarshalling into
`map[string]interface{}` (objects are association lists; Go maps have unique
keys, so concrete inputs below use distinct keys and lookups take the first
match). -/
inductive Json where
  | null
  | bool (b : Bool)
  | num (n : Int)
  | str (s : String)
  | arr (elems : List Json)
  | obj (fields : List (String × Json))

/-- UTF-8 encoding of a single character, the byte sequence Go's `string`
type stores. -/
def charUtf8 (c : Char) : List Nat :=
  let n := c.toNat
  if n < 128 then [n]
  else if n < 2048 then [192 + n / 64, 128 + n % 64]
  else if n < 65536 then [224 + n / 4096, 128 + n / 64 % 64, 128 + n % 64]
  else [240 + n / 262144, 128 + n / 4096 % 64, 128 + n / 64 % 64, 128 + n % 64]

/-- The bytes of a Go string (`[]byte(s)`). -/
def strBytes (s : String) : List Nat :=
  (s.data.map charUtf8).flatten

/-! ### SHA-1 (Go `crypto/sha1`), used by the card-callback signature check -/

/-- 2^32, the modulus for 32-bit word arithmetic. -/
def wordMod : Nat := 4294967296

/-- Left-rotation of a 32-bit word (for `x < 2^32` and `0 < n < 32`). -/
def rotl32 (x n : Nat) : Nat :=
  (x * 2 ^ n) % wordMod + x / 2 ^ (32 - n)

/-- Bitwise complement of a 32-bit word (for `x < 2^32`). -/
def not32 (x : Nat) : Nat := 4294967295 - x

/-- The SHA-1 round function. -/
def sha1f (i b c d : Nat) : Nat :=
  if i < 20 then (b &&& c) ||| (not32 b &&& d)
  else if i < 40 then b ^^^ c ^^^ d
  else if i < 60 then (b &&& c) ||| (b &&& d) ||| (c &&& d)
  else b ^^^ c ^^^ d

/-- The SHA-1 round constants. -/
def sha1k (i : Nat) : Nat :=
  if i < 20 then 0x5A827999
  else if i < 40 then 0x6ED9EBA1
  else if i < 60 then 0x8F1BBCDC
  else 0xCA62C1D6

/-- Big-endian 32-bit words from a byte list. -/
def bytesToWords : List Nat → List Nat
  | a :: b :: c :: d :: rest =>
      (a * 16777216 + b * 65536 + c * 256 + d) :: bytesToWords rest
  | _ => []

/-- Big-endian 8-byte encoding of a length in bits. -/
def beBytes8 (n : Nat) : List Nat :=
  [n / 2 ^ 56 % 256, n / 2 ^ 48 % 256, n / 2 ^ 40 % 256, n / 2 ^ 32 % 256,
   n / 2 ^ 24 % 256, n / 2 ^ 16 % 256, n / 2 ^ 8 % 256, n % 256]

/-- SHA-1 message padding: `0x80`, zeros to 56 mod 64, then the bit length. -/
def sha1pad (msg : List Nat) : List Nat :=
  let L := msg.length
  msg ++ [128] ++ List.replicate ((64 - (L + 9) % 64) % 64) 0 ++ beBytes8 (L * 8)

/-- Split a byte list into 64-byte chunks (fuel-based recursion so that the
definition reduces; `fuel = l.length` always suffices since every step
consumes at least one byte). -/
def chunks64Go : Nat → List Nat → List (List Nat)
  | 0, _ => []
  | _, [] => []
  | fuel + 1, x :: rest => (x :: rest).take 64 :: chunks64Go fuel (rest.drop 63)

/-- Split a byte list into 64-byte chunks. -/
def chunks64 (l : List Nat) : List (List Nat) := chunks64Go l.length l

/-- Extend the 16-word schedule by `n` further words. -/
def sha1schedule (w : Array Nat) : Nat → Array Nat
  | 0 => w
  | n + 1 =>
      let i := w.size
      let x := rotl32 ((w.getD (i - 3) 0) ^^^ (w.getD (i - 8) 0) ^^^
                       (w.getD (i - 14) 0) ^^^ (w.getD (i - 16) 0)) 1
      sha1schedule (w.push x) n

/-- One SHA-1 compression step over a 64-byte chunk. -/
def sha1compress (h : Nat × Nat × Nat × Nat × Nat) (chunk : List Nat) :
    Nat × Nat × Nat × Nat × Nat :=
  let w := sha1schedule (bytesToWords chunk).toArray 64
  let s := (List.range 80).foldl (fun s i =>
    let t := (rotl32 s.1 5 + sha1f i s.2.1 s.2.2.1 s.2.2.2.1 + s.2.2.2.2 +
              sha1k i + w.getD i 0) % wordMod
    (t, s.1, rotl32 s.2.1 30, s.2.2.1, s.2.2.2.1)) h
  ((h.1 + s.1) % wordMod, (h.2.1 + s.2.1) % wordMod,
   (h.2.2.1 + s.2.2.1) % wordMod, (h.2.2.2.1 + s.2.2.2.1) % wordMod,
   (h.2.2.2.2 + s.2.2.2.2) % wordMod)

/-- The SHA-1 initial state. -/
def sha1init : Nat × Nat × Nat × Nat × Nat :=
  (0x67452301, 0xEFCDAB89, 0x98BADCFE, 0x10325476, 0xC3D2E1F0)

/-- Lowercase hex digit. -/
def hexDigitChar (n : Nat) : Char :=
  if n < 10 then Char.ofNat (48 + n) else Char.ofNat (87 + n)

/-- Lowercase 8-digit hex of a 32-bit word. -/
def hex8 (w : Nat) : String :=
  String.mk ((List.range 8).map (fun i => hexDigitChar (w / 2 ^ (4 * (7 - i)) % 16)))

/-- Lowercase SHA-1 hex digest of a byte list (`fmt.Sprintf("%x", sha1.Sum(...))`). -/
def sha1hex (msg : List Nat) : String :=
  let f := (chunks64 (sha1pad msg)).foldl sha1compress sha1init
  hex8 f.1 ++ hex8 f.2.1 ++ hex8 f.2.2.1 ++ hex8 f.2.2.2.1 ++ hex8 f.2.2.2.2

/-! ### Webhook server (`src/larkbot/server.go`) -/

/-- The `Server` configuration fields the handlers consult: the verification
token, and whether the two callback fields are non-`nil`. (The encryption key
branch is modelled separately by `decryptEvent`; the logger only logs.) -/
structure ServerConfig where
  eventVerificationToken : String
  cardHandlerRegistered : Bool
  eventHandlerRegistered : Bool

/-- The observable effect of a handler on its `http.ResponseWriter`:
the status code (first `WriteHeader` wins; the first body write sets an
implicit 200), the `Content-Type` header map entry, and the JSON payloads
written to the body. -/
structure RW where
  status : Option Nat
  contentType : Option String
  bodyJson : List Json

/-- The writer before the handler runs. -/
def RW.init : RW := ⟨none, none, []⟩

/-- `w.WriteHeader(code)`: only the first call takes effect. -/
def RW.writeHeader (w : RW) (code : Nat) : RW :=
  if w.status.isSome then w else { w with status := some code }

/-- `w.Header().Set("Content-Type", ct)`. -/
def RW.setContentType (w : RW) (ct : String) : RW :=
  { w with contentType := some ct }

/-- `fmt.Fprint(w, ...)` of a JSON payload: an implicit 200 if no status was
written yet. -/
def RW.writeJson (w : RW) (j : Json) : RW :=
  { w with status := some (w.status.getD 200), bodyJson := w.bodyJson ++ [j] }

/-- The signature `handleLarkCards` recomputes: lowercase SHA-1 hex of
timestamp ++ nonce ++ verification token ++ raw body (server.go lines
93-103). -/
def cardsSignature (timestamp nonce token : String) (body : List Nat) : String :=
  sha1hex (strBytes timestamp ++ strBytes nonce ++ strBytes token ++ body)

/-- A request to the card-callback endpoint after the body was read:
the three `X-Lark-Request-*`/`X-Lark-Signature` headers, the raw body bytes,
and the result of `json.Unmarshal(body, &map[string]interface{})` (`none` =
unmarshal error; unmarshal into a Go map succeeds exactly on JSON objects). -/
structure CardsRequest where
  timestamp : String
  nonce : String
  signature : String
  rawBody : List Nat
  parsedBody : Option (List (String × Json))

/-- `handleLarkCards` (server.go lines 79-141), returning the writer effect
and the raw `action` value passed to `CardCallbackHandler` if it was invoked.
Note the signature-mismatch branch calls `returnError` (writing 204) but does
not return, so execution falls through to normal processing. -/
def handleLarkCards (cfg : ServerConfig) (req : CardsRequest) : RW × Option Json :=
  let w := RW.init
  let w := if cfg.eventVerificationToken ≠ "" ∧
              req.signature ≠ cardsSignature req.timestamp req.nonce
                cfg.eventVerificationToken req.rawBody
           then w.writeHeader 204 else w
  match req.parsedBody with
  | none => (w.writeHeader 204, none)
  | some fields =>
    match List.lookup "type" fields with
    | some (Json.str s) =>
        if s = "url_verification" then
          ((w.setContentType "application/json").writeJson
            (Json.obj [("challenge", (List.lookup "challenge" fields).getD Json.null)]),
           none)
        else (w.writeHeader 200, none)
    | some _ => (w.writeHeader 200, none)
    | none =>
      match List.lookup "action" fields with
      | some v =>
          if cfg.cardHandlerRegistered then (w, some v)
          else (w.writeHeader 200, none)
      | none => (w.writeHeader 200, none)

/-- The `type` values that make `handleLarkCards` jump to `end` (skipping the
`action` dispatch): a present `type` field that is not the string
`"url_verification"` — either a non-string value or a different string. -/
def typeDiverts : Json → Bool
  | Json.str s => !(s == "url_verification")
  | _ => true

/-- The `event` record of an event callback (struct `EventResponse.Event` in
`src/unnamed/part_001`). -/
structure EventDetail where
  chatId : String
  type : String
  msgType : String
  text : String
  textWithoutAtBot : String
  openId : String
  userOpenId : String

/-- The parsed event envelope (struct `EventResponse` in
`src/unnamed/part_001`). -/
structure EventResponse where
  type : String
  token : String
  challenge : String
  event : EventDetail

/-- An all-empty event record, the zero value Go unmarshalling starts from. -/
def emptyEventDetail : EventDetail := ⟨"", "", "", "", "", "", ""⟩

/-- `handleLarkEvents` after decryption and `json.Unmarshal` into
`EventResponse` (server.go lines 181-208): `parsed = none` models an
unmarshal error. Returns the writer effect and the envelope passed to
`EventCallbackHandler` if it was invoked. -/
def handleLarkEvents (cfg : ServerConfig) (parsed : Option EventResponse) :
    RW × Option EventResponse :=
  let w := RW.init
  match parsed with
  | none => (w.writeHeader 204, none)
  | some resp =>
    if cfg.eventVerificationToken ≠ "" ∧ cfg.eventVerificationToken ≠ resp.token then
      (w.writeHeader 204, none)
    else if resp.type = "url_verification" then
      ((w.setContentType "application/json").writeJson
        (Json.obj [("challenge", Json.str resp.challenge)]), none)
    else if resp.type = "event_callback" then
      if cfg.eventHandlerRegistered then (w.writeHeader 204, some resp)
      else (w.writeHeader 204, none)
    else (w.writeHeader 204, none)

/-- Outcome of the decryption block of `handleLarkEvents` (server.go lines
157-179): either a Go runtime/library panic, or the unpadded plaintext. -/
inductive DecOut where
  | panicked (msg : String)
  | plain (bytes : List Nat)

/-- The decryption block of `handleLarkEvents` (server.go lines 174-178) on
the base64-decoded payload. `decBlocks` models the (length-preserving)
AES-256-CBC block decryption `cipher.NewCBCDecrypter(block, iv).CryptBlocks`;
the slicing and unpadding around it are translated exactly, with Go's
panic conditions made explicit:
`cipherText[:16]` panics when the payload is shorter than 16 bytes;
`CryptBlocks` panics when the remainder is not a multiple of the block size;
`cipherText[len(cipherText)-1]` panics on an empty remainder; and
`cipherText[:bufLen]` panics when the final pad byte exceeds the buffer
length. -/
def decryptEvent (decBlocks : List Nat → List Nat) (cipherText : List Nat) : DecOut :=
  if cipherText.length < 16 then
    .panicked "runtime error: slice bounds out of range"
  else
    let ct := cipherText.drop 16
    if ct.length % 16 ≠ 0 then
      .panicked "crypto/cipher: input not full blocks"
    else
      let plain := decBlocks ct
      if plain.length = 0 then
        .panicked "runtime error: index out of range"
      else
        let n := plain.getLastD 0
        if plain.length < n then
          .panicked "runtime error: slice bounds out of range"
        else
          .plain (plain.take (plain.length - n))

/-- The outcome of one pass of the background refresh routine. -/
inductive LoopStep where
  | terminate
  | again (delaySeconds : Int)
deriving DecidableEq

/-- `true` exactly on `terminate`. -/
def LoopStep.isTerminate : LoopStep → Bool
  | .terminate => true
  | _ => false

/-- One pass of `updateAccessToken` (server.go lines 54-77). The input is the
result of `h.GetAccessToken()` — `none` when the callback is `nil` (the
routine returns at once without scheduling another pass). On an error the
deferred re-invocation runs after its fixed 5-second sleep; on success the
routine sleeps `secs = max(expire-60, 5)` seconds and then the deferred
re-invocation adds its own 5-second sleep, so the next pass starts
`secs + 5` seconds later. -/
def updateAccessTokenStep (fetch : Option (Except String Int)) : LoopStep :=
  match fetch with
  | none => .terminate
  | some (.error _) => .again 5
  | some (.ok expire) => .again (max (expire - 60) 5 + 5)

/-! ### SDK client (`src/unnamed/part_001`) -/

/-- The API origin (constant `Prefix` in the source; renamed here). -/
def urlBase : String := "https://open.feishu.cn/open-apis"

/-- The token endpoint path (constant `getAccessToken` in the source). -/
def getAccessTokenPath : String := "/auth/v3/tenant_access_token/internal"

/-- The mutable token cache of an `API` value (`accessToken`,
`accessTokenExpiredAt`); the expiry instant is in whole seconds. -/
structure APIState where
  accessToken : String
  accessTokenExpiredAt : Int

/-- The success payload of the token endpoint (struct
`AccessTokenResponse`). -/
structure AccessTokenResponse where
  expire : Int
  token : String

/-- `API.expired` (part_001 lines 314-316): `accessTokenExpiredAt.Before(now)`. -/
def expired (st : APIState) (now : Int) : Bool :=
  st.accessTokenExpiredAt < now

/-- `API.getAccessToken` (part_001 lines 277-316). `fetch` is the result of
the token-endpoint network call (performed only when the cache is expired;
the mutex serializes callers and is implicit in the sequential model).
Returns the call result, the state after the call, and whether the network
fetch was performed. -/
def getAccessTokenStep (st : APIState) (now : Int)
    (fetch : Except String AccessTokenResponse) :
    Except String Unit × APIState × Bool :=
  if expired st now then
    match fetch with
    | .error e => (.error e, st, true)
    | .ok d => (.ok (), ⟨d.token, now + (d.expire - 30)⟩, true)
  else (.ok (), st, false)

/-- An outbound `http.Request` as `newRequest` builds it. -/
structure GoRequest where
  method : String
  url : String
  authorization : String

/-- `API.newRequest` (part_001 lines 189-230). `marshalResult` is the result
of `json.Marshal` on the request body; `fetch` as in `getAccessTokenStep`.
Returns the built request or the propagated error, the state after the call,
and whether `getAccessToken` was invoked. -/
def newRequest (st : APIState) (now : Int)
    (fetch : Except String AccessTokenResponse) (method path : String)
    (marshalResult : Except String (List Nat)) :
    Except String GoRequest × APIState × Bool :=
  match marshalResult with
  | .error e => (.error e, st, false)
  | .ok _ =>
    if path ≠ getAccessTokenPath then
      match getAccessTokenStep st now fetch with
      | (.error e, st2, _) => (.error e, st2, true)
      | (.ok _, st2, _) =>
          (.ok ⟨method, urlBase ++ path, "Bearer " ++ st2.accessToken⟩, st2, true)
    else
      (.ok ⟨method, urlBase ++ path, "Bearer " ++ st.accessToken⟩, st, false)

/-- The common response envelope (struct `APIResponse`). -/
structure APIResponse where
  code : Int
  msg : String

/-- `json.Unmarshal(res, &apiResp)` for the `APIResponse` struct: succeeds on
JSON objects (unknown keys ignored, missing keys leave the zero value,
`null` is a no-op) and on top-level `null`; fails on a type mismatch or a
non-object top level. -/
def decodeAPIResponse : Json → Except String APIResponse
  | Json.obj fields =>
      match List.lookup "code" fields, List.lookup "msg" fields with
      | some (Json.bool _), _ =>
          .error "json: cannot unmarshal value into Go struct field APIResponse.code"
      | some (Json.str _), _ =>
          .error "json: cannot unmarshal value into Go struct field APIResponse.code"
      | some (Json.arr _), _ =>
          .error "json: cannot unmarshal value into Go struct field APIResponse.code"
      | some (Json.obj _), _ =>
          .error "json: cannot unmarshal value into Go struct field APIResponse.code"
      | _, some (Json.bool _) =>
          .error "json: cannot unmarshal value into Go struct field APIResponse.msg"
      | _, some (Json.num _) =>
          .error "json: cannot unmarshal value into Go struct field APIResponse.msg"
      | _, some (Json.arr _) =>
          .error "json: cannot unmarshal value into Go struct field APIResponse.msg"
      | _, some (Json.obj _) =>
          .error "json: cannot unmarshal value into Go struct field APIResponse.msg"
      | codeV, msgV =>
          .ok ⟨(match codeV with | some (Json.num n) => n | _ => 0),
               (match msgV with | some (Json.str s) => s | _ => "")⟩
  | Json.null => .ok ⟨0, ""⟩
  | _ => .error "json: cannot unmarshal value into Go value of type APIResponse"

/-- `API.do` (part_001 lines 232-266) after the transport succeeded and the
body was read: `status` is the (logged but never consulted) HTTP status,
`resBody` the response body, `wantTyped` whether the caller passed a
non-`nil` typed result (`respData`). Returns the error the call fails with,
or `.ok b` where `b` reports whether the typed unmarshal
`json.Unmarshal(res, respData)` was performed. -/
def doRequest (_status : Nat) (resBody : Json) (wantTyped : Bool) :
    Except String Bool :=
  match decodeAPIResponse resBody with
  | .error e => .error e
  | .ok apiResp =>
      if apiResp.msg ≠ "ok" ∧ apiResp.msg ≠ "success" then
        .error ("not ok or success returned: " ++ apiResp.msg)
      else .ok wantTyped

/-- `parseTarget` (part_001 lines 700-711). -/
def parseTarget (target : String) :
    Option String × Option String × Option String × Option String :=
  if target.startsWith "ou_" then (some target, none, none, none)
  else if target.startsWith "oc_" then (none, some target, none, none)
  else if target.startsWith "@" then (none, none, some target, none)
  else (none, none, none, some target)

/-- The recipient keys the message-send request bodies serialize: the four
`*string` fields carry `json:"...,omitempty"` tags, so a key is present
exactly when the pointer is non-`nil` and its value is the pointee
(`SendMessage`, `SendImageMessage`, `SendPost`, `SendCard`). -/
def messageTargetFields
    (t : Option String × Option String × Option String × Option String) :
    List (String × String) :=
  (match t.1 with | some s => [("open_id", s)] | none => []) ++
  (match t.2.1 with | some s => [("chat_id", s)] | none => []) ++
  (match t.2.2.1 with | some s => [("email", s)] | none => []) ++
  (match t.2.2.2 with | some s => [("user_id", s)] | none => [])

/-! ## Theorems -/

/-- C10: for every target string, `parseTarget` fills exactly one of the four
recipient slots — `open_id` for an `"ou_"` prefix, else `chat_id` for
`"oc_"`, else `email` for `"@"`, else `user_id` — so the serialized
message-send body carries exactly that one recipient key, with the target
string as its value. -/
theorem parseTargetExactlyOne (target : String) :
    messageTargetFields (parseTarget target) =
      [(if target.startsWith "ou_" then "open_id"
        else if target.startsWith "oc_" then "chat_id"
        else if target.startsWith "@" then "email"
        else "user_id", target)] := by
  by_cases h1 : target.startsWith "ou_"
  · simp [parseTarget, messageTargetFields, h1]
  · by_cases h2 : target.startsWith "oc_"
    · simp [parseTarget, messageTargetFields, h1, h2]
    · by_cases h3 : target.startsWith "@"
      · simp [parseTarget, messageTargetFields, h1, h2, h3]
      · simp [parseTarget, messageTargetFields, h1, h2, h3]

/-- C5 counterexample: the claim says a successful refresh reporting ttl 100
is followed by a `max(5, 100−60) = 40` second sleep before the next refresh,
but one pass of `updateAccessToken` re-runs only after 45 seconds (the
deferred re-invocation adds a fixed 5-second sleep on top of the computed
wait). -/
theorem updateLoopDelayCounterexample :
    (decide (updateAccessTokenStep (some (Except.ok 100)) =
      LoopStep.again (max ((100 : Int) - 60) 5))) = false := by decide

/-- C5 amended: whenever a token supplier is configured the loop never
terminates; after a failed refresh the next pass starts after exactly 5
seconds, and after a successful refresh reporting ttl `n` it starts after
exactly `max(5, n − 60) + 5` seconds. -/
theorem updateLoopDelayAmended (r : Except String Int) :
    (updateAccessTokenStep (some r)).isTerminate = false ∧
    (∀ e, r = Except.error e → updateAccessTokenStep (some r) = LoopStep.again 5) ∧
    (∀ n, r = Except.ok n →
      updateAccessTokenStep (some r) = LoopStep.again (max (n - 60) 5 + 5)) := by
  cases r <;> simp [updateAccessTokenStep, LoopStep.isTerminate]

/-- C5 witness: a successful refresh with ttl 7200 reschedules (does not
terminate) after `max(7200−60, 5) + 5` seconds. -/
theorem updateLoopDelayAmendedWitness :
    updateAccessTokenStep (some (Except.ok 7200)) =
      LoopStep.again (max ((7200 : Int) - 60) 5 + 5) ∧
    (updateAccessTokenStep (some (Except.error "boom"))).isTerminate = false :=
  ⟨(updateLoopDelayAmended (Except.ok 7200)).2.2 7200 rfl,
   (updateLoopDelayAmended (Except.error "boom")).1⟩

/-- C4: when the cached expiry has not passed, `getAccessToken` returns
success with no network fetch and an unchanged cache; when it has passed, the
fetch runs — an error is surfaced with the cache unchanged, and a success
stores the returned token with expiry `now + Expire − 30` seconds. -/
theorem getAccessTokenCacheBehavior (st : APIState) (now : Int)
    (fetch : Except String AccessTokenResponse) :
    (expired st now = false →
      getAccessTokenStep st now fetch = (Except.ok (), st, false)) ∧
    (expired st now = true →
      (∀ e, fetch = Except.error e →
        getAccessTokenStep st now fetch = (Except.error e, st, true)) ∧
      (∀ d, fetch = Except.ok d →
        getAccessTokenStep st now fetch =
          (Except.ok (), ⟨d.token, now + (d.expire - 30)⟩, true))) := by
  constructor
  · intro h
    simp [getAccessTokenStep, h]
  · intro h
    constructor
    · intro e he
      subst he
      simp [getAccessTokenStep, h]
    · intro d hd
      subst hd
      simp [getAccessTokenStep, h]

/-- C4 witness: with expiry 100 at time 50 the cache is reused with no fetch;
with expiry 10 at time 50 a successful fetch of `{expire 7200, token "new"}`
stores token `"new"` with expiry `50 + (7200 − 30)`. -/
theorem getAccessTokenCacheBehaviorWitness :
    getAccessTokenStep ⟨"tok", 100⟩ 50 (Except.error "x") =
      (Except.ok (), ⟨"tok", 100⟩, false) ∧
    getAccessTokenStep ⟨"old", 10⟩ 50 (Except.ok ⟨7200, "new"⟩) =
      (Except.ok (), ⟨"new", 50 + (7200 - 30)⟩, true) :=
  ⟨(getAccessTokenCacheBehavior ⟨"tok", 100⟩ 50 (Except.error "x")).1 (by decide),
   ((getAccessTokenCacheBehavior ⟨"old", 10⟩ 50 (Except.ok ⟨7200, "new"⟩)).2
      (by decide)).2 ⟨7200, "new"⟩ rfl⟩

/-- C6: whatever the HTTP status, if the response envelope decodes with a
`msg` other than `"ok"` or `"success"` the call fails with an error carrying
that message; and the typed payload is unmarshalled only when the call
succeeds, which requires `msg` to be `"ok"` or `"success"`. -/
theorem envelopeMsgCheck (status : Nat) (j : Json) (wantTyped : Bool) :
    (∀ resp, decodeAPIResponse j = Except.ok resp → resp.msg ≠ "ok" →
      resp.msg ≠ "success" →
      doRequest status j wantTyped =
        Except.error ("not ok or success returned: " ++ resp.msg)) ∧
    (∀ b, doRequest status j wantTyped = Except.ok b →
      b = wantTyped ∧ ∃ resp, decodeAPIResponse j = Except.ok resp ∧
        (resp.msg = "ok" ∨ resp.msg = "success")) := by
  constructor
  · intro resp h h1 h2
    unfold doRequest
    rw [h]
    simp [h1, h2]
  · intro b hb
    unfold doRequest at hb
    cases hd : decodeAPIResponse j with
    | error e => rw [hd] at hb; cases hb
    | ok resp =>
      rw [hd] at hb
      dsimp only at hb
      by_cases hc : resp.msg ≠ "ok" ∧ resp.msg ≠ "success"
      · rw [if_pos hc] at hb
        cases hb
      · rw [if_neg hc] at hb
        cases hb
        refine ⟨rfl, resp, rfl, ?_⟩
        by_cases hok : resp.msg = "ok"
        · exact Or.inl hok
        · refine Or.inr ?_
          by_contra hsucc
          exact hc ⟨hok, hsucc⟩

/-- C6 witness: the response `{"code":0,"msg":"not ok"}` with HTTP status 200
fails with the message `not ok` carried in the error. -/
theorem envelopeMsgCheckWitness :
    doRequest 200 (Json.obj [("code", Json.num 0), ("msg", Json.str "not ok")]) true =
      Except.error ("not ok or success returned: " ++ "not ok") :=
  (envelopeMsgCheck 200
      (Json.obj [("code", Json.num 0), ("msg", Json.str "not ok")]) true).1
    ⟨0, "not ok"⟩ rfl (by decide) (by decide)

/-- C8: for any path other than the token endpoint, `newRequest` invokes
`getAccessToken` (propagating its error and its state change) and attaches
the current token as `Authorization: Bearer <token>`; a request for the token
endpoint itself never triggers a refresh and carries the cached token. -/
theorem newRequestTokenAttachment (st : APIState) (now : Int)
    (fetch : Except String AccessTokenResponse) (method path : String)
    (bytes : List Nat) :
    (path ≠ getAccessTokenPath →
      (newRequest st now fetch method path (Except.ok bytes)).2.2 = true ∧
      (newRequest st now fetch method path (Except.ok bytes)).2.1 =
        (getAccessTokenStep st now fetch).2.1 ∧
      (∀ e, (getAccessTokenStep st now fetch).1 = Except.error e →
        (newRequest st now fetch method path (Except.ok bytes)).1 = Except.error e) ∧
      ((getAccessTokenStep st now fetch).1 = Except.ok () →
        (newRequest st now fetch method path (Except.ok bytes)).1 =
          Except.ok ⟨method, urlBase ++ path,
            "Bearer " ++ (getAccessTokenStep st now fetch).2.1.accessToken⟩)) ∧
    (newRequest st now fetch method getAccessTokenPath (Except.ok bytes) =
      (Except.ok ⟨method, urlBase ++ getAccessTokenPath,
        "Bearer " ++ st.accessToken⟩, st, false)) := by
  constructor
  · intro hp
    rcases hg : getAccessTokenStep st now fetch with ⟨res, st2, b⟩
    cases res with
    | error e =>
      refine ⟨?_, ?_, ?_, ?_⟩ <;>
        simp_all [newRequest, hp, hg]
    | ok u =>
      refine ⟨?_, ?_, ?_, ?_⟩ <;>
        simp_all [newRequest, hp, hg]
  · simp [newRequest]

/-- C8 witness: with a valid cached token `"tok"`, building a `POST
/chat/v4/list/` request invokes the (no-op) refresh, while building the
token-endpoint request does not. -/
theorem newRequestTokenAttachmentWitness :
    (newRequest ⟨"tok", 100⟩ 50 (Except.error "x") "POST" "/chat/v4/list/"
      (Except.ok [])).2.2 = true ∧
    (newRequest ⟨"tok", 100⟩ 50 (Except.error "x") "POST" getAccessTokenPath
      (Except.ok [])).2.2 = false := by
  have h := newRequestTokenAttachment ⟨"tok", 100⟩ 50 (Except.error "x")
    "POST" "/chat/v4/list/" []
  exact ⟨(h.1 (by decide)).1, by rw [h.2]⟩

/-- C3: when a verification token is configured and the parsed envelope's
token differs from it, the event endpoint writes 204 with an empty body and
the event handler is never invoked. -/
theorem eventsTokenMismatchRejected (cfg : ServerConfig) (resp : EventResponse)
    (ht : cfg.eventVerificationToken ≠ "")
    (hm : resp.token ≠ cfg.eventVerificationToken) :
    handleLarkEvents cfg (some resp) = (⟨some 204, none, []⟩, none) := by
  have hm2 : cfg.eventVerificationToken ≠ resp.token := fun h => hm h.symm
  simp [handleLarkEvents, ht, hm2, RW.init, RW.writeHeader]

/-- C3 witness: with configured token `"t"`, an `event_callback` envelope
with token `"wrong"` is answered 204 and never reaches the handler. -/
theorem eventsTokenMismatchRejectedWitness :
    handleLarkEvents ⟨"t", false, true⟩
      (some ⟨"event_callback", "wrong", "", emptyEventDetail⟩) =
      (⟨some 204, none, []⟩, none) :=
  eventsTokenMismatchRejected ⟨"t", false, true⟩
    ⟨"event_callback", "wrong", "", emptyEventDetail⟩ (by decide) (by decide)

/-- C7: a `url_verification` envelope that passes the configured verification
check is answered 200 with `Content-Type: application/json` and the body
`{"challenge": c}` echoing exactly the received challenge — on the event
endpoint, and likewise on the card-callback endpoint. -/
theorem urlVerificationEcho (cfg : ServerConfig) (resp : EventResponse)
    (req : CardsRequest) (fields : List (String × Json)) (c : Json) :
    ((cfg.eventVerificationToken = "" ∨ cfg.eventVerificationToken = resp.token) →
      resp.type = "url_verification" →
      handleLarkEvents cfg (some resp) =
        (⟨some 200, some "application/json",
          [Json.obj [("challenge", Json.str resp.challenge)]]⟩, none)) ∧
    ((cfg.eventVerificationToken = "" ∨
        req.signature = cardsSignature req.timestamp req.nonce
          cfg.eventVerificationToken req.rawBody) →
      req.parsedBody = some fields →
      List.lookup "type" fields = some (Json.str "url_verification") →
      List.lookup "challenge" fields = some c →
      handleLarkCards cfg req =
        (⟨some 200, some "application/json", [Json.obj [("challenge", c)]]⟩, none)) := by
  constructor
  · intro h htype
    have hguard : ¬(cfg.eventVerificationToken ≠ "" ∧
        cfg.eventVerificationToken ≠ resp.token) := by
      rcases h with h | h
      · exact fun hc => hc.1 h
      · exact fun hc => hc.2 h
    simp [handleLarkEvents, hguard, htype, RW.init, RW.setContentType, RW.writeJson]
  · intro hs hparsed hty hch
    have hguard : ¬(cfg.eventVerificationToken ≠ "" ∧
        req.signature ≠ cardsSignature req.timestamp req.nonce
          cfg.eventVerificationToken req.rawBody) := by
      rcases hs with h | h
      · exact fun hc => hc.1 h
      · exact fun hc => hc.2 h
    simp [handleLarkCards, hguard, hparsed, hty, hch, RW.init, RW.setContentType,
      RW.writeJson]

/-- C7 witness: with no verification configured, the concrete envelope
`type "url_verification"`, challenge `"abc123"` is echoed as
`{"challenge":"abc123"}` with 200 on both endpoints. -/
theorem urlVerificationEchoWitness :
    handleLarkEvents ⟨"", false, false⟩
      (some ⟨"url_verification", "", "abc123", emptyEventDetail⟩) =
      (⟨some 200, some "application/json",
        [Json.obj [("challenge", Json.str "abc123")]]⟩, none) ∧
    handleLarkCards ⟨"", false, false⟩
      ⟨"", "", "", [],
       some [("type", Json.str "url_verification"), ("challenge", Json.str "abc123")]⟩ =
      (⟨some 200, some "application/json",
        [Json.obj [("challenge", Json.str "abc123")]]⟩, none) := by
  have h := urlVerificationEcho ⟨"", false, false⟩
    ⟨"url_verification", "", "abc123", emptyEventDetail⟩
    ⟨"", "", "", [],
     some [("type", Json.str "url_verification"), ("challenge", Json.str "abc123")]⟩
    [("type", Json.str "url_verification"), ("challenge", Json.str "abc123")]
    (Json.str "abc123")
  exact ⟨h.1 (Or.inl rfl) rfl, h.2 (Or.inl rfl) rfl rfl rfl⟩

/-- C9 counterexample: a body carrying an `action` field together with a
`type` field that is not `url_verification` is answered 200 with an empty
body and the registered card handler is NOT invoked — the `type` branch jumps
to `end` past the `action` dispatch. -/
theorem cardActionSkippedCounterexample :
    handleLarkCards ⟨"", true, false⟩
      ⟨"", "", "", [], some [("type", Json.str "x"), ("action", Json.str "a")]⟩ =
      (⟨some 200, none, []⟩, none) := rfl

/-- C9 amended: for a body whose `type` field is absent, an `action` field
with a registered handler is dispatched to the handler (which then owns the
response); with no handler registered, or with no `action` field, the
endpoint responds 200 with an empty body, and a present `type` field other
than the string `"url_verification"` always responds 200 with an empty body
without invoking the handler. (All under a passing signature check.) -/
theorem cardActionDispatchAmended (cfg : ServerConfig) (req : CardsRequest)
    (fields : List (String × Json))
    (hp : req.parsedBody = some fields)
    (hs : cfg.eventVerificationToken = "" ∨
      req.signature = cardsSignature req.timestamp req.nonce
        cfg.eventVerificationToken req.rawBody) :
    (∀ v, List.lookup "type" fields = none → List.lookup "action" fields = some v →
      cfg.cardHandlerRegistered = true →
      handleLarkCards cfg req = (RW.init, some v)) ∧
    (∀ v, List.lookup "type" fields = none → List.lookup "action" fields = some v →
      cfg.cardHandlerRegistered = false →
      handleLarkCards cfg req = (⟨some 200, none, []⟩, none)) ∧
    (List.lookup "type" fields = none → List.lookup "action" fields = none →
      handleLarkCards cfg req = (⟨some 200, none, []⟩, none)) ∧
    (∀ t, List.lookup "type" fields = some t → typeDiverts t = true →
      handleLarkCards cfg req = (⟨some 200, none, []⟩, none)) := by
  have hguard : ¬(cfg.eventVerificationToken ≠ "" ∧
      req.signature ≠ cardsSignature req.timestamp req.nonce
        cfg.eventVerificationToken req.rawBody) := by
    rcases hs with h | h
    · exact fun hc => hc.1 h
    · exact fun hc => hc.2 h
  refine ⟨?_, ?_, ?_, ?_⟩
  · intro v hty hact hreg
    simp [handleLarkCards, hguard, hp, hty, hact, hreg, RW.init, RW.writeHeader]
  · intro v hty hact hreg
    simp [handleLarkCards, hguard, hp, hty, hact, hreg, RW.init, RW.writeHeader]
  · intro hty hact
    simp [handleLarkCards, hguard, hp, hty, hact, RW.init, RW.writeHeader]
  · intro t hty hdiv
    cases t with
    | str s =>
      have hne : s ≠ "url_verification" := by simpa [typeDiverts] using hdiv
      simp [handleLarkCards, hguard, hp, hty, hne, RW.init, RW.writeHeader]
    | null => simp [handleLarkCards, hguard, hp, hty, RW.init, RW.writeHeader]
    | bool b => simp [handleLarkCards, hguard, hp, hty, RW.init, RW.writeHeader]
    | num n => simp [handleLarkCards, hguard, hp, hty, RW.init, RW.writeHeader]
    | arr es => simp [handleLarkCards, hguard, hp, hty, RW.init, RW.writeHeader]
    | obj fs => simp [handleLarkCards, hguard, hp, hty, RW.init, RW.writeHeader]

/-- C9 witness: the body `{"action":"a"}` with a registered handler and no
verification token is dispatched to the handler with the raw value `"a"`. -/
theorem cardActionDispatchAmendedWitness :
    handleLarkCards ⟨"", true, false⟩
      ⟨"", "", "", [], some [("action", Json.str "a")]⟩ =
      (RW.init, some (Json.str "a")) := by
  have h := cardActionDispatchAmended ⟨"", true, false⟩
    ⟨"", "", "", [], some [("action", Json.str "a")]⟩
    [("action", Json.str "a")] rfl (Or.inl rfl)
  exact h.1 (Json.str "a") rfl rfl rfl

set_option maxRecDepth 10000 in
/-- C1 (code bug): with verification token `"t"` configured and a card
handler registered, a request whose `X-Lark-Signature` header `"bad"` does
not match the recomputed SHA-1 digest is answered 204 — but processing does
not stop: the body `\x7b"action":"x"\x7d` still reaches the card handler
(returned `some (Json.str "x")`), because the mismatch branch writes the
status without returning. -/
theorem cardsSignatureMismatchStillDispatches :
    handleLarkCards ⟨"t", true, false⟩
      ⟨"ts1", "n1", "bad", strBytes "\x7b\"action\":\"x\"\x7d",
       some [("action", Json.str "x")]⟩ =
      (⟨some 204, none, []⟩, some (Json.str "x")) := rfl

/-- C2 (code bug): the decryption block of the event handler panics instead
of failing gracefully on malformed input — on a decoded payload shorter than
16 bytes (slice bound), on a remainder that is not a multiple of 16
(`CryptBlocks`), on an empty remainder (index out of range), and on a final
pad byte exceeding the buffer length (negative slice bound); a final pad byte
of 0 is accepted and strips nothing, and on well-formed input exactly the
last byte's worth of padding is stripped. -/
theorem decryptEventPanicsOnMalformed :
    decryptEvent id [] = DecOut.panicked "runtime error: slice bounds out of range" ∧
    decryptEvent id (List.replicate 17 0) =
      DecOut.panicked "crypto/cipher: input not full blocks" ∧
    decryptEvent id (List.replicate 16 0) =
      DecOut.panicked "runtime error: index out of range" ∧
    decryptEvent id (List.replicate 16 0 ++ (List.replicate 15 0 ++ [255])) =
      DecOut.panicked "runtime error: slice bounds out of range" ∧
    decryptEvent id (List.replicate 16 0 ++ (List.replicate 15 0 ++ [0])) =
      DecOut.plain (List.replicate 15 0 ++ [0]) ∧
    decryptEvent id (List.replicate 16 0 ++ (List.replicate 12 7 ++ List.replicate 4 4)) =
      DecOut.plain (List.replicate 12 7) :=
  ⟨rfl, rfl, rfl, rfl, rfl, rfl⟩

end LarkSlim
